import Mathlib

/-!
Shallow embedding of `demo.py` (repository miikkavaisala/Malaphar).

The Python program builds a uniform Cartesian grid (`DataContainer` with a
`numpy.meshgrid` of `numpy.linspace` axes), evaluates two analytic fields on it
(`r2_density`, an inverse-square density profile, and `keplerian_rotation`, a
capped Keplerian rotation velocity field), stores the resulting arrays in the
container's `fields` dictionary via `set_field`, and renders one z-plane with
`make_contourmap`.

Modelling conventions:
- floating point values are modelled as real numbers; a cell value that would
  be IEEE `inf`/`-inf`/`nan` (the only source in this program is division by
  zero inside the `numpy.errstate` blocks) is modelled as `none : Option ℝ`,
  a finite value `v` as `some v`;
- numpy arrays of grid shape are modelled per cell: a function of the integer
  indices `i j k`; the nested-list meshgrid (`meshgrid_xx` and friends) is
  additionally given so that array shapes are observable;
- the Python `dict` `self.fields` is modelled as `String → Option NDArray`;
  a `dict` lookup that would raise `KeyError` is modelled as `none`;
- `numpy.atan2` is modelled as `Complex.arg ⟨x, y⟩`, which agrees with
  `atan2(y, x)` on all inputs including `atan2(0, 0) = 0`.
-/

/-- A numpy `ndarray` as stored in the field dictionary: a shape together with
its (flattened) payload.  Nothing in `demo.py` inspects the payload of a stored
array, so no coherence between `shape` and `data` is imposed, exactly as in
Python where any array of any shape can be stored. -/
structure NDArray where
  shape : List ℕ
  data : List ℝ

/-- The `DataContainer` object of `demo.py` (lines 4-47): resolution,
dimensions, dataset name, field-name list, the `fields` dictionary and the
derived `dxyz` cell size computed in `__init__` (line 29). -/
structure DataContainer where
  resolution : ℕ × ℕ × ℕ
  dimensions : ℝ × ℝ × ℝ
  dataset_name : String
  field_list : List String
  fields : String → Option NDArray
  dxyz : ℝ × ℝ × ℝ

/-- `DataContainer.__init__` (lines 7-29): stores the four arguments, an empty
field dictionary, and `dxyz = dimensions / resolution` elementwise. -/
noncomputable def DataContainer.init
    (resolution : ℕ × ℕ × ℕ) (dimensions : ℝ × ℝ × ℝ)
    (dataset_name : String) (field_list : List String) : DataContainer :=
  { resolution := resolution
    dimensions := dimensions
    dataset_name := dataset_name
    field_list := field_list
    fields := fun _ => none
    dxyz := (dimensions.1 / resolution.1,
             dimensions.2.1 / resolution.2.1,
             dimensions.2.2 / resolution.2.2) }

/-- `DataContainer.set_field` (lines 39-47): `self.fields[field_name] =
field_array`, an unconditional dictionary write. -/
def set_field (dc : DataContainer) (field_name : String)
    (field_array : NDArray) : DataContainer :=
  { dc with fields := Function.update dc.fields field_name (some field_array) }

/-- Retrieval of a stored field.  `demo.py` has no `get_field` method; reading
a field is the dictionary subscript `data.fields[name]` (lines 149, 152-153).
A missing key raises `KeyError` in Python, modelled as `none`. -/
def get_field (dc : DataContainer) (field_name : String) : Option NDArray :=
  dc.fields field_name

/-- Entry `i` of `numpy.linspace(0, L, n)`: `i * (L / (n - 1))` for `n > 1`;
for `n = 1` the single entry is the start point `0` (and for `n = 0` the array
is empty, so the value is irrelevant). -/
noncomputable def linspace (L : ℝ) (n : ℕ) (i : ℕ) : ℝ :=
  if n ≤ 1 then 0 else (i : ℝ) * (L / ((n : ℝ) - 1))

/-- The full `numpy.linspace(0, L, n)` array (line 34-36 of `demo.py`). -/
noncomputable def np_linspace (L : ℝ) (n : ℕ) : List ℝ :=
  (List.range n).map (linspace L n)

/-- Value of the meshgrid array `xx` at cell `(i, j, k)`: with `indexing='ij'`
(line 37) it is `x[i]`, independent of `j` and `k`. -/
noncomputable def xxAt (dc : DataContainer) (i : ℕ) : ℝ :=
  linspace dc.dimensions.1 dc.resolution.1 i

/-- Value of the meshgrid array `yy` at cell `(i, j, k)`: `y[j]`. -/
noncomputable def yyAt (dc : DataContainer) (j : ℕ) : ℝ :=
  linspace dc.dimensions.2.1 dc.resolution.2.1 j

/-- Value of the meshgrid array `zz` at cell `(i, j, k)`: `z[k]`. -/
noncomputable def zzAt (dc : DataContainer) (k : ℕ) : ℝ :=
  linspace dc.dimensions.2.2 dc.resolution.2.2 k

/-- The meshgrid array `xx` of `get_meshgrid` (lines 32-37) as a nested list
of shape `(nx, ny, nz)`; entry `(i, j, k)` is `x[i]`. -/
noncomputable def meshgrid_xx (dc : DataContainer) : List (List (List ℝ)) :=
  (List.range dc.resolution.1).map fun i =>
    (List.range dc.resolution.2.1).map fun _ =>
      (List.range dc.resolution.2.2).map fun _ => xxAt dc i

/-- The meshgrid array `yy`: entry `(i, j, k)` is `y[j]`. -/
noncomputable def meshgrid_yy (dc : DataContainer) : List (List (List ℝ)) :=
  (List.range dc.resolution.1).map fun _ =>
    (List.range dc.resolution.2.1).map fun j =>
      (List.range dc.resolution.2.2).map fun _ => yyAt dc j

/-- The meshgrid array `zz`: entry `(i, j, k)` is `z[k]`. -/
noncomputable def meshgrid_zz (dc : DataContainer) : List (List (List ℝ)) :=
  (List.range dc.resolution.1).map fun _ =>
    (List.range dc.resolution.2.1).map fun _ =>
      (List.range dc.resolution.2.2).map fun k => zzAt dc k

/-- Entry `(i, j, k)` of a nested-list array (out-of-range indices default). -/
noncomputable def mesh_at (m : List (List (List ℝ))) (i j k : ℕ) : ℝ :=
  ((m.getD i []).getD j []).getD k 0

/-- The x offset `dx = xx - location[0]` of a cell from the profile center
(lines 72, 116). -/
noncomputable def dxAt (dc : DataContainer) (location : ℝ × ℝ × ℝ) (i : ℕ) : ℝ :=
  xxAt dc i - location.1

/-- The y offset `dy = yy - location[1]` (lines 73, 117). -/
noncomputable def dyAt (dc : DataContainer) (location : ℝ × ℝ × ℝ) (j : ℕ) : ℝ :=
  yyAt dc j - location.2.1

/-- The z offset `dz = zz - location[2]` (line 118). -/
noncomputable def dzAt (dc : DataContainer) (location : ℝ × ℝ × ℝ) (k : ℕ) : ℝ :=
  zzAt dc k - location.2.2

/-- The in-plane radius `radius_xy = sqrt(dx**2 + dy**2)` of
`keplerian_rotation` (line 74). -/
noncomputable def radiusXYAt (dc : DataContainer) (location : ℝ × ℝ × ℝ)
    (i j : ℕ) : ℝ :=
  Real.sqrt (dxAt dc location i ^ 2 + dyAt dc location j ^ 2)

/-- The 3D radius `radius = sqrt(dx**2 + dy**2 + dz**2)` of `r2_density`
(line 119). -/
noncomputable def radiusAt (dc : DataContainer) (location : ℝ × ℝ × ℝ)
    (i j k : ℕ) : ℝ :=
  Real.sqrt (dxAt dc location i ^ 2 + dyAt dc location j ^ 2 +
    dzAt dc location k ^ 2)

/-- `numpy.atan2(y, x)`, the angle of the point `(x, y)`; `atan2(0, 0) = 0`. -/
noncomputable def atan2 (y x : ℝ) : ℝ :=
  Complex.arg ⟨x, y⟩

/-- Cell `(i, j, k)` of the array returned by `r2_density` (lines 94-127):
`density = max_density * (inner_r**2 / radius**2)` computed with
divide/invalid warnings suppressed, then `density[radius <= inner_r] =
max_density`.  A cell whose final value would be non-finite (the division by
zero at `radius = 0` when the cap does not overwrite it) is `none`. -/
noncomputable def r2_density (dc : DataContainer) (location : ℝ × ℝ × ℝ)
    (inner_r max_density : ℝ) (i j k : ℕ) : Option ℝ :=
  if radiusAt dc location i j k ≤ inner_r then some max_density
  else if radiusAt dc location i j k = 0 then none
  else some (max_density * (inner_r ^ 2 / radiusAt dc location i j k ^ 2))

/-- Cell `(i, j, k)` of the `(nx, ny, nz, 3)` array returned by
`keplerian_rotation` (lines 49-91), as the velocity triple `(vx, vy, vz)`:
`omega = max_omega * (inner_r / radius_xy) ** 1.5` with warnings suppressed,
then `omega[radius_xy <= inner_r] = max_omega`; `v_azimuth = radius_xy *
omega`; `phi = atan2(dy, dx)`; `v = (-v_azimuth * sin(phi), v_azimuth *
cos(phi), 0)`.  A cell whose `omega` stays non-finite (division by zero at
`radius_xy = 0` not overwritten by the cap, or the `nan` of a negative base
raised to the power 1.5) is `none`; the z component is the untouched `0` of
the `numpy.zeros` allocation (lines 86-89). -/
noncomputable def keplerian_rotation (dc : DataContainer) (location : ℝ × ℝ × ℝ)
    (inner_r max_omega : ℝ) (i j _k : ℕ) : Option (ℝ × ℝ × ℝ) :=
  (if radiusXYAt dc location i j ≤ inner_r then some max_omega
   else if radiusXYAt dc location i j = 0 then none
   else if inner_r < 0 then none
   else some (max_omega * (inner_r / radiusXYAt dc location i j) ^ ((3 : ℝ) / 2))).map
  fun w =>
    (-(radiusXYAt dc location i j * w *
        Real.sin (atan2 (dyAt dc location j) (dxAt dc location i))),
      radiusXYAt dc location i j * w *
        Real.cos (atan2 (dyAt dc location j) (dxAt dc location i)),
      0)

/-- The concrete container of `main` (lines 210-215), at the demo resolution
scaled down to 5 x 5 x 1 for concrete evaluation. -/
noncomputable def dcDemo : DataContainer :=
  DataContainer.init (5, 5, 1) (1, 1, 0) "radial_profile" ["density", "velocity3"]

/-! ### Helper lemmas -/

theorem getD_map_range {α : Type} (f : ℕ → α) {n i : ℕ} (h : i < n) (d : α) :
    ((List.range n).map f).getD i d = f i := by
  have hlen : i < ((List.range n).map f).length := by simpa using h
  rw [List.getD_eq_getElem _ _ hlen]
  simp

theorem mesh_at_xx (dc : DataContainer) {i j k : ℕ}
    (hi : i < dc.resolution.1) (hj : j < dc.resolution.2.1)
    (hk : k < dc.resolution.2.2) :
    mesh_at (meshgrid_xx dc) i j k = xxAt dc i := by
  unfold mesh_at meshgrid_xx
  rw [getD_map_range _ hi, getD_map_range _ hj, getD_map_range _ hk]

theorem mesh_at_yy (dc : DataContainer) {i j k : ℕ}
    (hi : i < dc.resolution.1) (hj : j < dc.resolution.2.1)
    (hk : k < dc.resolution.2.2) :
    mesh_at (meshgrid_yy dc) i j k = yyAt dc j := by
  unfold mesh_at meshgrid_yy
  rw [getD_map_range _ hi, getD_map_range _ hj, getD_map_range _ hk]

theorem mesh_at_zz (dc : DataContainer) {i j k : ℕ}
    (hi : i < dc.resolution.1) (hj : j < dc.resolution.2.1)
    (hk : k < dc.resolution.2.2) :
    mesh_at (meshgrid_zz dc) i j k = zzAt dc k := by
  unfold mesh_at meshgrid_zz
  rw [getD_map_range _ hi, getD_map_range _ hj, getD_map_range _ hk]

theorem foldr_max_le {l : List ℝ} {b : ℝ} (hb : 0 ≤ b)
    (h : ∀ a ∈ l, a ≤ b) : l.foldr max 0 ≤ b := by
  induction l with
  | nil => simpa using hb
  | cons x xs ih =>
      simp only [List.foldr_cons]
      exact max_le (h x (List.mem_cons_self x xs))
        (ih fun a ha => h a (List.mem_cons_of_mem x ha))

theorem le_foldr_max {l : List ℝ} {a : ℝ} (h : a ∈ l) :
    a ≤ l.foldr max 0 := by
  induction l with
  | nil => cases h
  | cons x xs ih =>
      rcases List.mem_cons.mp h with h1 | h2
      · rw [h1]
        exact le_max_left x (xs.foldr max 0)
      · exact le_trans (ih h2) (le_max_right x (xs.foldr max 0))

theorem np_linspace_max (L : ℝ) (n : ℕ) (hn : 2 ≤ n) (hL : 0 ≤ L) :
    (np_linspace L n).foldr max 0 = L := by
  have hn1 : ¬ n ≤ 1 := by omega
  have hcast : (1 : ℝ) < (n : ℝ) := by exact_mod_cast (by omega : 1 < n)
  have hne : (n : ℝ) - 1 ≠ 0 := by linarith
  have hdiv : 0 ≤ L / ((n : ℝ) - 1) := div_nonneg hL (by linarith)
  apply le_antisymm
  · apply foldr_max_le hL
    intro a ha
    rcases List.mem_map.mp ha with ⟨i, hi, rfl⟩
    have hi' : i < n := List.mem_range.mp hi
    have hile : (i : ℝ) ≤ (n : ℝ) - 1 := by
      have : (i : ℝ) + 1 ≤ (n : ℝ) := by exact_mod_cast hi'
      linarith
    calc linspace L n i = (i : ℝ) * (L / ((n : ℝ) - 1)) := by
          simp [linspace, hn1]
      _ ≤ ((n : ℝ) - 1) * (L / ((n : ℝ) - 1)) :=
          mul_le_mul_of_nonneg_right hile hdiv
      _ = L := by field_simp
  · apply le_foldr_max
    have hmem : n - 1 ∈ List.range n := List.mem_range.mpr (by omega)
    have hval : linspace L n (n - 1) = L := by
      have hc : ((n - 1 : ℕ) : ℝ) = (n : ℝ) - 1 := by
        have : (1 : ℕ) ≤ n := by omega
        push_cast [this]
        ring
      simp only [linspace, hn1, if_false, hc]
      field_simp
    show L ∈ (List.range n).map (linspace L n)
    exact List.mem_map.mpr ⟨n - 1, hmem, hval⟩

theorem radiusXYAt_nonneg (dc : DataContainer) (location : ℝ × ℝ × ℝ)
    (i j : ℕ) : 0 ≤ radiusXYAt dc location i j :=
  Real.sqrt_nonneg _

theorem radiusAt_nonneg (dc : DataContainer) (location : ℝ × ℝ × ℝ)
    (i j k : ℕ) : 0 ≤ radiusAt dc location i j k :=
  Real.sqrt_nonneg _

theorem atan2_magnitude (dx dy M : ℝ) (hM : 0 ≤ M) :
    Real.sqrt ((-(Real.sqrt (dx ^ 2 + dy ^ 2) * M * Real.sin (atan2 dy dx))) ^ 2 +
      (Real.sqrt (dx ^ 2 + dy ^ 2) * M * Real.cos (atan2 dy dx)) ^ 2 + (0 : ℝ) ^ 2) =
    M * Real.sqrt (dx ^ 2 + dy ^ 2) := by
  have hr : (0 : ℝ) ≤ Real.sqrt (dx ^ 2 + dy ^ 2) := Real.sqrt_nonneg _
  have hsum : (-(Real.sqrt (dx ^ 2 + dy ^ 2) * M * Real.sin (atan2 dy dx))) ^ 2 +
      (Real.sqrt (dx ^ 2 + dy ^ 2) * M * Real.cos (atan2 dy dx)) ^ 2 + (0 : ℝ) ^ 2 =
      (M * Real.sqrt (dx ^ 2 + dy ^ 2)) ^ 2 *
        (Real.sin (atan2 dy dx) ^ 2 + Real.cos (atan2 dy dx) ^ 2) := by ring
  rw [hsum, Real.sin_sq_add_cos_sq, mul_one]
  exact Real.sqrt_sq (mul_nonneg hM hr)

theorem atan2_tangential (dx dy M : ℝ) :
    -(Real.sqrt (dx ^ 2 + dy ^ 2) * M * Real.sin (atan2 dy dx)) * dx +
      Real.sqrt (dx ^ 2 + dy ^ 2) * M * Real.cos (atan2 dy dx) * dy = 0 := by
  by_cases h : dx = 0 ∧ dy = 0
  · rcases h with ⟨h1, h2⟩
    rw [h1, h2]
    ring
  · have hz : (⟨dx, dy⟩ : ℂ) ≠ 0 := by
      intro hc
      apply h
      constructor
      · have := congrArg Complex.re hc
        simpa using this
      · have := congrArg Complex.im hc
        simpa using this
    have habs : Complex.abs ⟨dx, dy⟩ = Real.sqrt (dx ^ 2 + dy ^ 2) := by
      rw [Complex.abs_apply, Complex.normSq_mk]
      congr 1
      ring
    have hrpos : 0 < Real.sqrt (dx ^ 2 + dy ^ 2) := by
      apply Real.sqrt_pos.mpr
      rcases not_and_or.mp h with h1 | h1
      · have := pow_two_pos_of_ne_zero h1
        nlinarith [sq_nonneg dy]
      · have := pow_two_pos_of_ne_zero h1
        nlinarith [sq_nonneg dx]
    have hne : Real.sqrt (dx ^ 2 + dy ^ 2) ≠ 0 := hrpos.ne'
    have hsin : Real.sin (atan2 dy dx) = dy / Real.sqrt (dx ^ 2 + dy ^ 2) := by
      unfold atan2
      rw [Complex.sin_arg, habs]
    have hcos : Real.cos (atan2 dy dx) = dx / Real.sqrt (dx ^ 2 + dy ^ 2) := by
      unfold atan2
      rw [Complex.cos_arg hz, habs]
    have h1 : Real.sqrt (dx ^ 2 + dy ^ 2) * M * (dy / Real.sqrt (dx ^ 2 + dy ^ 2)) =
        M * dy := by
      field_simp
      ring
    have h2 : Real.sqrt (dx ^ 2 + dy ^ 2) * M * (dx / Real.sqrt (dx ^ 2 + dy ^ 2)) =
        M * dx := by
      field_simp
      ring
    rw [hsin, hcos, h1, h2]
    ring

/-! ### Claim theorems -/

/-- C1: for every grid cell, `r2_density` returns `max_density` at cells with
`r <= inner_radius` and `max_density * (inner_radius / r) ^ 2` at cells with
`r > inner_radius`; at distance exactly `inner_radius` the value is
`max_density`, and the falloff formula evaluated at `r = inner_radius` also
gives `max_density`, so the profile is continuous at the inner-radius
boundary. -/
theorem r2_density_profile (dc : DataContainer) (location : ℝ × ℝ × ℝ)
    (inner_r max_density : ℝ) (i j k : ℕ) (hpos : 0 < inner_r) :
    (radiusAt dc location i j k ≤ inner_r →
      r2_density dc location inner_r max_density i j k = some max_density) ∧
    (inner_r < radiusAt dc location i j k →
      r2_density dc location inner_r max_density i j k =
        some (max_density * (inner_r / radiusAt dc location i j k) ^ 2)) ∧
    (radiusAt dc location i j k = inner_r →
      r2_density dc location inner_r max_density i j k = some max_density) ∧
    max_density * (inner_r / inner_r) ^ 2 = max_density := by
  refine ⟨fun h => by simp [r2_density, h], fun h => ?_,
    fun h => by simp [r2_density, h], ?_⟩
  · have h1 : ¬ radiusAt dc location i j k ≤ inner_r := not_le.mpr h
    have h2 : radiusAt dc location i j k ≠ 0 := ne_of_gt (lt_trans hpos h)
    simp [r2_density, h1, h2, div_pow]
  · rw [div_self (ne_of_gt hpos), one_pow, mul_one]

/-- C1 witness: the profile theorem applied to the demo grid, center at the
origin, `inner_radius = 1`, `max_density = 2`, cell `(1, 0, 0)`. -/
theorem r2_density_profile_witness :
    (0 : ℝ) < 1 ∧
    ((radiusAt dcDemo (0, 0, 0) 1 0 0 ≤ 1 →
      r2_density dcDemo (0, 0, 0) 1 2 1 0 0 = some 2) ∧
    (1 < radiusAt dcDemo (0, 0, 0) 1 0 0 →
      r2_density dcDemo (0, 0, 0) 1 2 1 0 0 =
        some (2 * (1 / radiusAt dcDemo (0, 0, 0) 1 0 0) ^ 2)) ∧
    (radiusAt dcDemo (0, 0, 0) 1 0 0 = 1 →
      r2_density dcDemo (0, 0, 0) 1 2 1 0 0 = some 2) ∧
    (2 : ℝ) * ((1 : ℝ) / 1) ^ 2 = 2) :=
  ⟨by norm_num, r2_density_profile dcDemo (0, 0, 0) 1 2 1 0 0 (by norm_num)⟩

/-- C2: with `inner_radius > 0`, every cell of the arrays produced by
`r2_density` and `keplerian_rotation` is finite (no `nan`, no `inf`,
modelled as `Option.isSome`); in particular a cell at distance zero from the
profile center receives the capped values: `max_density` for the density and
the zero velocity vector for the rotation field. -/
theorem fields_finite (dc : DataContainer) (location : ℝ × ℝ × ℝ)
    (inner_r max_density max_omega : ℝ) (i j k : ℕ) (hpos : 0 < inner_r) :
    (r2_density dc location inner_r max_density i j k).isSome = true ∧
    (keplerian_rotation dc location inner_r max_omega i j k).isSome = true ∧
    (radiusAt dc location i j k = 0 →
      r2_density dc location inner_r max_density i j k = some max_density) ∧
    (radiusXYAt dc location i j = 0 →
      keplerian_rotation dc location inner_r max_omega i j k = some (0, 0, 0)) := by
  refine ⟨?_, ?_, ?_, ?_⟩
  · by_cases h : radiusAt dc location i j k ≤ inner_r
    · simp [r2_density, h]
    · have h2 : radiusAt dc location i j k ≠ 0 :=
        ne_of_gt (lt_trans hpos (not_le.mp h))
      simp [r2_density, h, h2]
  · by_cases h : radiusXYAt dc location i j ≤ inner_r
    · simp [keplerian_rotation, h]
    · have h2 : radiusXYAt dc location i j ≠ 0 :=
        ne_of_gt (lt_trans hpos (not_le.mp h))
      have h3 : ¬ inner_r < 0 := not_lt.mpr hpos.le
      simp [keplerian_rotation, h, h2, h3]
  · intro h0
    simp [r2_density, h0, hpos.le]
  · intro h0
    simp [keplerian_rotation, h0, hpos.le]

/-- C2 witness: finiteness applied to the demo grid at cell `(0, 0, 0)` with
the center at the origin (so the cell coincides with the profile center). -/
theorem fields_finite_witness :
    (0 : ℝ) < 1 ∧
    ((r2_density dcDemo (0, 0, 0) 1 2 0 0 0).isSome = true ∧
    (keplerian_rotation dcDemo (0, 0, 0) 1 3 0 0 0).isSome = true ∧
    (radiusAt dcDemo (0, 0, 0) 0 0 0 = 0 →
      r2_density dcDemo (0, 0, 0) 1 2 0 0 0 = some 2) ∧
    (radiusXYAt dcDemo (0, 0, 0) 0 0 = 0 →
      keplerian_rotation dcDemo (0, 0, 0) 1 3 0 0 0 = some (0, 0, 0))) :=
  ⟨by norm_num, fields_finite dcDemo (0, 0, 0) 1 2 3 0 0 0 (by norm_num)⟩

/-- C3: at every cell in the solid-body region (`radius_xy <= inner_radius`,
with a nonnegative angular-velocity cap), the velocity vector returned by
`keplerian_rotation` has magnitude exactly `max_omega * radius_xy` and is
tangential: its dot product with the in-plane offset from the center is
zero. -/
theorem keplerian_solid_body (dc : DataContainer) (location : ℝ × ℝ × ℝ)
    (inner_r max_omega : ℝ) (i j k : ℕ)
    (hr : radiusXYAt dc location i j ≤ inner_r) (hM : 0 ≤ max_omega) :
    ∀ v : ℝ × ℝ × ℝ,
      keplerian_rotation dc location inner_r max_omega i j k = some v →
      Real.sqrt (v.1 ^ 2 + v.2.1 ^ 2 + v.2.2 ^ 2) =
          max_omega * radiusXYAt dc location i j ∧
        v.1 * dxAt dc location i + v.2.1 * dyAt dc location j = 0 := by
  intro v hv
  unfold keplerian_rotation at hv
  rw [if_pos hr] at hv
  simp only [Option.map_some', Option.some.injEq] at hv
  subst hv
  constructor
  · exact atan2_magnitude (dxAt dc location i) (dyAt dc location j) max_omega hM
  · exact atan2_tangential (dxAt dc location i) (dyAt dc location j) max_omega

/-- C3 witness: the solid-body theorem applied to the demo grid at the center
cell `(0, 0, 0)` with center at the origin, `inner_radius = 1`,
`max_omega = 1`, where the velocity vector is `(0, 0, 0)`. -/
theorem keplerian_solid_body_witness :
    radiusXYAt dcDemo (0, 0, 0) 0 0 ≤ 1 ∧ (0 : ℝ) ≤ 1 ∧
    keplerian_rotation dcDemo (0, 0, 0) 1 1 0 0 0 =
      some ((0 : ℝ), (0 : ℝ), (0 : ℝ)) ∧
    (Real.sqrt ((0 : ℝ) ^ 2 + (0 : ℝ) ^ 2 + (0 : ℝ) ^ 2) =
        1 * radiusXYAt dcDemo (0, 0, 0) 0 0 ∧
      (0 : ℝ) * dxAt dcDemo (0, 0, 0) 0 + (0 : ℝ) * dyAt dcDemo (0, 0, 0) 0 = 0) := by
  have hr0 : radiusXYAt dcDemo (0, 0, 0) 0 0 = 0 := by
    simp [radiusXYAt, dxAt, dyAt, xxAt, yyAt, linspace, dcDemo, DataContainer.init]
  have hr : radiusXYAt dcDemo (0, 0, 0) 0 0 ≤ 1 := by
    rw [hr0]
    norm_num
  have hkep : keplerian_rotation dcDemo (0, 0, 0) 1 1 0 0 0 =
      some ((0 : ℝ), (0 : ℝ), (0 : ℝ)) := by
    unfold keplerian_rotation
    rw [if_pos hr]
    simp only [Option.map_some', Option.some.injEq, Prod.mk.injEq]
    rw [hr0]
    norm_num
  have hmain := keplerian_solid_body dcDemo (0, 0, 0) 1 1 0 0 0 hr (by norm_num)
    ((0 : ℝ), (0 : ℝ), (0 : ℝ)) hkep
  exact ⟨hr, by norm_num, hkep, hmain⟩

/-- C6: the z-component of every finite velocity cell returned by
`keplerian_rotation` is exactly `0`, for every grid, center, inner radius and
angular-velocity cap: the `numpy.zeros` allocation of the `(nx, ny, nz, 3)`
output is never written along component 2. -/
theorem keplerian_z_zero (dc : DataContainer) (location : ℝ × ℝ × ℝ)
    (inner_r max_omega : ℝ) (i j k : ℕ) :
    ∀ v : ℝ × ℝ × ℝ,
      keplerian_rotation dc location inner_r max_omega i j k = some v →
      v.2.2 = 0 := by
  intro v hv
  unfold keplerian_rotation at hv
  rcases Option.map_eq_some'.mp hv with ⟨w, _, hw⟩
  rw [← hw]

/-- C6 witness: the z-component theorem applied to the demo grid at the
center cell, where the velocity evaluates to `(0, 0, 0)`. -/
theorem keplerian_z_zero_witness :
    keplerian_rotation dcDemo (0, 0, 0) 1 1 0 0 0 =
      some ((0 : ℝ), (0 : ℝ), (0 : ℝ)) ∧
    ((0 : ℝ), (0 : ℝ), (0 : ℝ)).2.2 = 0 := by
  have hr0 : radiusXYAt dcDemo (0, 0, 0) 0 0 = 0 := by
    simp [radiusXYAt, dxAt, dyAt, xxAt, yyAt, linspace, dcDemo, DataContainer.init]
  have hkep : keplerian_rotation dcDemo (0, 0, 0) 1 1 0 0 0 =
      some ((0 : ℝ), (0 : ℝ), (0 : ℝ)) := by
    unfold keplerian_rotation
    rw [if_pos (by rw [hr0]; norm_num)]
    simp only [Option.map_some', Option.some.injEq, Prod.mk.injEq]
    rw [hr0]
    norm_num
  exact ⟨hkep, keplerian_z_zero dcDemo (0, 0, 0) 1 1 0 0 0 _ hkep⟩

/-- C4 counterexample: `demo.py` contains no parameter validation at all (and
no `InvalidParameterError` class); called with `inner_radius = 0` both field
generators return normally.  Concretely, on the demo grid with center at the
origin, cell `(1, 0, 0)` (radius `1/4 > 0`) evaluates to the finite density
`0` and the finite velocity `(0, 0, 0)` instead of failing. -/
theorem inner_radius_zero_no_error :
    r2_density dcDemo (0, 0, 0) 0 1 1 0 0 = some 0 ∧
    keplerian_rotation dcDemo (0, 0, 0) 0 1 1 0 0 = some (0, 0, 0) := by
  have h1 : dxAt dcDemo (0, 0, 0) 1 = 1 / 4 := by
    simp [dxAt, xxAt, dcDemo, DataContainer.init, linspace]
    norm_num
  have h2 : dyAt dcDemo (0, 0, 0) 0 = 0 := by
    simp [dyAt, yyAt, dcDemo, DataContainer.init, linspace]
  have h3 : dzAt dcDemo (0, 0, 0) 0 = 0 := by
    simp [dzAt, zzAt, dcDemo, DataContainer.init, linspace]
  have hrad : radiusAt dcDemo (0, 0, 0) 1 0 0 = 1 / 4 := by
    rw [radiusAt, h1, h2, h3]
    rw [show (1 / 4 : ℝ) ^ 2 + 0 ^ 2 + 0 ^ 2 = (1 / 4 : ℝ) ^ 2 by norm_num]
    rw [Real.sqrt_sq (by norm_num)]
  have hrxy : radiusXYAt dcDemo (0, 0, 0) 1 0 = 1 / 4 := by
    rw [radiusXYAt, h1, h2]
    rw [show (1 / 4 : ℝ) ^ 2 + 0 ^ 2 = (1 / 4 : ℝ) ^ 2 by norm_num]
    rw [Real.sqrt_sq (by norm_num)]
  constructor
  · rw [r2_density, hrad]
    rw [if_neg (by norm_num : ¬ (1 / 4 : ℝ) ≤ 0),
      if_neg (by norm_num : ¬ (1 / 4 : ℝ) = 0)]
    norm_num
  · rw [keplerian_rotation, hrxy]
    rw [if_neg (by norm_num : ¬ (1 / 4 : ℝ) ≤ 0),
      if_neg (by norm_num : ¬ (1 / 4 : ℝ) = 0),
      if_neg (by norm_num : ¬ (0 : ℝ) < 0)]
    have hz : ((0 : ℝ) / (1 / 4 : ℝ)) ^ ((3 : ℝ) / 2) = 0 := by
      rw [zero_div]
      exact Real.zero_rpow (by norm_num)
    rw [hz]
    simp only [Option.map_some', Option.some.injEq, Prod.mk.injEq]
    norm_num

/-- C4 amended: neither `r2_density` nor `keplerian_rotation` validates
`inner_radius`; with `inner_radius = 0` both return normally on every cell:
the density is `max_density` at a cell exactly at the center (the cap branch
`radius <= 0`) and `0` elsewhere, and the velocity is `(0, 0, 0)`
everywhere. -/
theorem inner_radius_zero_behavior (dc : DataContainer) (location : ℝ × ℝ × ℝ)
    (max_density max_omega : ℝ) (i j k : ℕ) :
    r2_density dc location 0 max_density i j k =
      some (if radiusAt dc location i j k = 0 then max_density else 0) ∧
    keplerian_rotation dc location 0 max_omega i j k = some (0, 0, 0) := by
  constructor
  · by_cases h : radiusAt dc location i j k = 0
    · simp [r2_density, h, le_of_eq h]
    · have hpos : 0 < radiusAt dc location i j k :=
        lt_of_le_of_ne (radiusAt_nonneg dc location i j k) (Ne.symm h)
      have hnle : ¬ radiusAt dc location i j k ≤ 0 := not_le.mpr hpos
      simp [r2_density, h, hnle]
  · by_cases h : radiusXYAt dc location i j = 0
    · simp [keplerian_rotation, h, le_refl]
    · have hpos : 0 < radiusXYAt dc location i j :=
        lt_of_le_of_ne (radiusXYAt_nonneg dc location i j) (Ne.symm h)
      have hnle : ¬ radiusXYAt dc location i j ≤ 0 := not_le.mpr hpos
      have hz : ((0 : ℝ) / radiusXYAt dc location i j) ^ ((3 : ℝ) / 2) = 0 := by
        rw [zero_div]
        exact Real.zero_rpow (by norm_num)
      simp [keplerian_rotation, h, hnle, hz]

/-- Shape predicate for a nested-list 3D array: outer length, the length of
every plane, and the length of every row. -/
def hasShape3 (m : List (List (List ℝ))) (n1 n2 n3 : ℕ) : Prop :=
  m.length = n1 ∧ ∀ p ∈ m, p.length = n2 ∧ ∀ q ∈ p, q.length = n3

/-- The meshgrid contract checked by claim C5: shapes `(nx, ny, nz)` for all
three arrays, ij-indexed linspace values, and the amended maximum-coordinate
property (the maximum along an axis equals the dimension when that axis has
at least two points and a nonnegative extent). -/
def meshgridSpec (dc : DataContainer) (i j k : ℕ) : Prop :=
  hasShape3 (meshgrid_xx dc) dc.resolution.1 dc.resolution.2.1 dc.resolution.2.2 ∧
  hasShape3 (meshgrid_yy dc) dc.resolution.1 dc.resolution.2.1 dc.resolution.2.2 ∧
  hasShape3 (meshgrid_zz dc) dc.resolution.1 dc.resolution.2.1 dc.resolution.2.2 ∧
  mesh_at (meshgrid_xx dc) i j k =
    (if dc.resolution.1 ≤ 1 then 0
     else (i : ℝ) * (dc.dimensions.1 / ((dc.resolution.1 : ℝ) - 1))) ∧
  mesh_at (meshgrid_yy dc) i j k =
    (if dc.resolution.2.1 ≤ 1 then 0
     else (j : ℝ) * (dc.dimensions.2.1 / ((dc.resolution.2.1 : ℝ) - 1))) ∧
  mesh_at (meshgrid_zz dc) i j k =
    (if dc.resolution.2.2 ≤ 1 then 0
     else (k : ℝ) * (dc.dimensions.2.2 / ((dc.resolution.2.2 : ℝ) - 1))) ∧
  (2 ≤ dc.resolution.1 → 0 ≤ dc.dimensions.1 →
    (np_linspace dc.dimensions.1 dc.resolution.1).foldr max 0 = dc.dimensions.1) ∧
  (2 ≤ dc.resolution.2.1 → 0 ≤ dc.dimensions.2.1 →
    (np_linspace dc.dimensions.2.1 dc.resolution.2.1).foldr max 0 = dc.dimensions.2.1) ∧
  (2 ≤ dc.resolution.2.2 → 0 ≤ dc.dimensions.2.2 →
    (np_linspace dc.dimensions.2.2 dc.resolution.2.2).foldr max 0 = dc.dimensions.2.2)

/-- C5 (amended): the coordinate mesh has shape exactly `(nx, ny, nz)` in all
three arrays, with ij-style indexing and linspace values
`i * L / (n - 1)` for `n > 1` and `0` for `n = 1`; the maximum coordinate
along an axis equals the corresponding dimension whenever that axis has
resolution at least `2` (for a degenerate axis of resolution `1` the sole
coordinate is `0`, which equals the dimension only when the dimension is
`0`). -/
theorem get_meshgrid_spec (dc : DataContainer) (i j k : ℕ)
    (hi : i < dc.resolution.1) (hj : j < dc.resolution.2.1)
    (hk : k < dc.resolution.2.2) : meshgridSpec dc i j k := by
  unfold meshgridSpec
  refine ⟨?_, ?_, ?_, ?_, ?_, ?_, ?_, ?_, ?_⟩
  · refine ⟨by simp [meshgrid_xx], ?_⟩
    intro p hp
    rcases List.mem_map.mp hp with ⟨a, _, rfl⟩
    refine ⟨by simp, ?_⟩
    intro q hq
    rcases List.mem_map.mp hq with ⟨b, _, rfl⟩
    simp
  · refine ⟨by simp [meshgrid_yy], ?_⟩
    intro p hp
    rcases List.mem_map.mp hp with ⟨a, _, rfl⟩
    refine ⟨by simp, ?_⟩
    intro q hq
    rcases List.mem_map.mp hq with ⟨b, _, rfl⟩
    simp
  · refine ⟨by simp [meshgrid_zz], ?_⟩
    intro p hp
    rcases List.mem_map.mp hp with ⟨a, _, rfl⟩
    refine ⟨by simp, ?_⟩
    intro q hq
    rcases List.mem_map.mp hq with ⟨b, _, rfl⟩
    simp
  · rw [mesh_at_xx dc hi hj hk]
    rfl
  · rw [mesh_at_yy dc hi hj hk]
    rfl
  · rw [mesh_at_zz dc hi hj hk]
    rfl
  · intro h2 hL
    exact np_linspace_max _ _ h2 hL
  · intro h2 hL
    exact np_linspace_max _ _ h2 hL
  · intro h2 hL
    exact np_linspace_max _ _ h2 hL

/-- A container with three distinct axis resolutions and extents, used to
instantiate the meshgrid contract concretely. -/
noncomputable def dcMesh : DataContainer :=
  DataContainer.init (3, 4, 5) (2, 3, 4) "mesh" []

/-- C5 witness: the meshgrid contract at the concrete container `dcMesh` and
cell `(1, 2, 3)`. -/
theorem get_meshgrid_spec_witness :
    (1 < dcMesh.resolution.1 ∧ 2 < dcMesh.resolution.2.1 ∧
      3 < dcMesh.resolution.2.2) ∧ meshgridSpec dcMesh 1 2 3 :=
  ⟨⟨by norm_num [dcMesh, DataContainer.init],
    by norm_num [dcMesh, DataContainer.init],
    by norm_num [dcMesh, DataContainer.init]⟩,
   get_meshgrid_spec dcMesh 1 2 3 (by norm_num [dcMesh, DataContainer.init])
     (by norm_num [dcMesh, DataContainer.init])
     (by norm_num [dcMesh, DataContainer.init])⟩

/-- A container whose x axis is degenerate (resolution 1) while its x extent
is `1`. -/
noncomputable def dcSingle : DataContainer :=
  DataContainer.init (1, 5, 1) (1, 1, 0) "single" []

/-- C5 counterexample: on a valid grid with `nx = 1` and `Lx = 1`, every
x coordinate is `0` (numpy `linspace(0, 1, 1)` is `[0.]`), so the maximum x
coordinate is `0`, which differs from the dimension `1`: the claim's
"maximum coordinate equals the dimension" clause fails for degenerate
axes. -/
theorem mesh_max_not_dimension :
    mesh_at (meshgrid_xx dcSingle) 0 0 0 = 0 ∧
    (np_linspace dcSingle.dimensions.1 dcSingle.resolution.1).foldr max 0 = 0 ∧
    dcSingle.dimensions.1 = 1 ∧ (0 : ℝ) ≠ 1 := by
  refine ⟨?_, ?_, ?_, ?_⟩
  · rw [mesh_at_xx dcSingle (by norm_num [dcSingle, DataContainer.init])
      (by norm_num [dcSingle, DataContainer.init])
      (by norm_num [dcSingle, DataContainer.init])]
    simp [xxAt, linspace, dcSingle, DataContainer.init]
  · have h1 : List.range 1 = [0] := by decide
    simp [np_linspace, dcSingle, DataContainer.init, h1, linspace]
  · simp [dcSingle, DataContainer.init]
  · norm_num

/-- An array whose shape disagrees with the demo grid resolution. -/
def badArr : NDArray :=
  { shape := [2, 3, 4], data := [] }

/-- C7 counterexample: `set_field` performs no shape check (line 47 is an
unconditional dictionary write, and no `ShapeMismatchError` class exists in
`demo.py`): storing an array of shape `[2, 3, 4]` on the `(5, 5, 1)` demo
grid succeeds and changes the store, so the all-stored-arrays-match
invariant fails. -/
theorem set_field_no_shape_check :
    dcDemo.fields "density" = none ∧
    (set_field dcDemo "density" badArr).fields "density" = some badArr ∧
    badArr.shape ≠ [dcDemo.resolution.1, dcDemo.resolution.2.1,
      dcDemo.resolution.2.2] := by
  refine ⟨rfl, ?_, ?_⟩
  · simp [set_field]
  · simp [badArr, dcDemo, DataContainer.init]

/-- C7 amended: `set_field` stores and overwrites unconditionally; even an
array whose shape differs from the grid resolution is stored under the given
name (there is no shape validation and no error path). -/
theorem set_field_stores_any_shape (dc : DataContainer) (name : String)
    (arr : NDArray)
    (_h : arr.shape ≠ [dc.resolution.1, dc.resolution.2.1, dc.resolution.2.2]) :
    (set_field dc name arr).fields name = some arr := by
  simp [set_field]

/-- C7 witness: the unconditional store applied to the demo grid and the
mismatched array. -/
theorem set_field_stores_any_shape_witness :
    badArr.shape ≠ [dcDemo.resolution.1, dcDemo.resolution.2.1,
      dcDemo.resolution.2.2] ∧
    (set_field dcDemo "other" badArr).fields "other" = some badArr :=
  ⟨by simp [badArr, dcDemo, DataContainer.init],
   set_field_stores_any_shape dcDemo "other" badArr
     (by simp [badArr, dcDemo, DataContainer.init])⟩

/-- C8: storing an array under a name and retrieving that name returns the
identical array, and retrieving any name from a freshly constructed container
(where no field was ever stored) fails: the dictionary lookup is `none`,
which in Python surfaces as the eager `KeyError` of `data.fields[name]`. -/
theorem field_roundtrip (dc : DataContainer) (name : String) (arr : NDArray)
    (res : ℕ × ℕ × ℕ) (dims : ℝ × ℝ × ℝ) (dsn : String) (fl : List String)
    (name2 : String) :
    get_field (set_field dc name arr) name = some arr ∧
    get_field (DataContainer.init res dims dsn fl) name2 = none := by
  constructor
  · simp [get_field, set_field]
  · rfl

/-- The vector-field array stored under the name `velocity3`. -/
def arrV : NDArray :=
  { shape := [5, 5, 1, 3], data := [] }

/-- C10: `set_field` accepts every field name - the statement quantifies
over all names with no membership condition, so names absent from the
`field_list` given at construction are covered exactly like listed ones (the
list is never consulted) - and changes only the `fields` entry under that
name: resolution, dimensions, dataset name, field list, cell size, the
derived coordinate mesh, and every other stored field are unchanged. -/
theorem set_field_frame (dc : DataContainer) (name : String) (arr : NDArray)
    (other : String) (hne : other ≠ name) :
    (set_field dc name arr).fields name = some arr ∧
    (set_field dc name arr).resolution = dc.resolution ∧
    (set_field dc name arr).dimensions = dc.dimensions ∧
    (set_field dc name arr).dataset_name = dc.dataset_name ∧
    (set_field dc name arr).field_list = dc.field_list ∧
    (set_field dc name arr).dxyz = dc.dxyz ∧
    meshgrid_xx (set_field dc name arr) = meshgrid_xx dc ∧
    meshgrid_yy (set_field dc name arr) = meshgrid_yy dc ∧
    meshgrid_zz (set_field dc name arr) = meshgrid_zz dc ∧
    (set_field dc name arr).fields other = dc.fields other := by
  refine ⟨?_, rfl, rfl, rfl, rfl, rfl, rfl, rfl, rfl, ?_⟩
  · simp [set_field]
  · simp [set_field, Function.update_noteq hne]

/-- C10 witness: the frame theorem applied to the scenario of `main` itself
(lines 220-223): storing `velocity3` - a name that is in the field list -
leaves the previously stored `density` entry and every container attribute
unchanged. -/
theorem set_field_frame_witness :
    "density" ≠ "velocity3" ∧
    ((set_field dcDemo "velocity3" arrV).fields "velocity3" = some arrV ∧
    (set_field dcDemo "velocity3" arrV).resolution = dcDemo.resolution ∧
    (set_field dcDemo "velocity3" arrV).dimensions = dcDemo.dimensions ∧
    (set_field dcDemo "velocity3" arrV).dataset_name = dcDemo.dataset_name ∧
    (set_field dcDemo "velocity3" arrV).field_list = dcDemo.field_list ∧
    (set_field dcDemo "velocity3" arrV).dxyz = dcDemo.dxyz ∧
    meshgrid_xx (set_field dcDemo "velocity3" arrV) = meshgrid_xx dcDemo ∧
    meshgrid_yy (set_field dcDemo "velocity3" arrV) = meshgrid_yy dcDemo ∧
    meshgrid_zz (set_field dcDemo "velocity3" arrV) = meshgrid_zz dcDemo ∧
    (set_field dcDemo "velocity3" arrV).fields "density" =
      dcDemo.fields "density") :=
  ⟨by simp, set_field_frame dcDemo "velocity3" arrV "density" (by simp)⟩
